import Mathlib

/-
Verification of the core algorithms of the hibachi-xyz volume bot
(src/volume_bot_maker_only_v3.py and src/shorter.py): the robust price
oracle with outlier filtering, the adaptive maker-sell pricing policy,
the market trend tracker with loss-streak cooldown, and the trading
statistics aggregator.

Modelling conventions: Python floats are modelled as rationals; a Python
value that may be None is an Option; the gateway call outcome is an
Except value whose error case stands for a raised exception caught by
the try block. Exceptional paths inside the try body (such as a
division by a zero aggregate size) are routed to the same (none, none)
result that the except handler produces.
-/

namespace HibachiBot

/-
Truthiness of an optional numeric value as in Python: None and 0.0 are
falsy, every other float is truthy. This is encoded below as the
proposition x.getD 0 ≠ 0, which holds exactly for some v with v ≠ 0.
-/

/-- Insert a value into a sorted list, keeping it sorted. -/
def insertSorted (x : ℚ) : List ℚ → List ℚ
  | [] => [x]
  | y :: ys => if x ≤ y then x :: y :: ys else y :: insertSorted x ys

/-- Insertion sort of a list of rationals, ascending. -/
def sortedQ : List ℚ → List ℚ
  | [] => []
  | x :: xs => insertSorted x (sortedQ xs)

/-- statistics.median: sort the data; for odd length take the middle
element, for even length the average of the two middle elements. -/
def median (xs : List ℚ) : ℚ :=
  let s := sortedQ xs
  let n := s.length
  if n % 2 = 1 then s.getD (n / 2) 0
  else (s.getD (n / 2 - 1) 0 + s.getD (n / 2) 0) / 2

/-- filter_outlier_prices (volume_bot_maker_only_v3.py lines 187-216 and
shorter.py lines 168-191, identical code): keep inputs of length at most
2 unchanged; otherwise keep the prices whose absolute deviation from the
median is within max_deviation_percent percent of the median, falling
back to the first input price when everything was filtered out. -/
def filter_outlier_prices (prices : List ℚ) (max_deviation_percent : ℚ) : List ℚ :=
  if prices.length ≤ 2 then prices
  else
    let median_price := median prices
    let max_deviation := median_price * (max_deviation_percent / 100)
    let filtered := prices.filter (fun p => decide (|p - median_price| ≤ max_deviation))
    if filtered = [] then [prices.headD 0] else filtered

/-- One order book level: a price and a resting quantity. -/
structure Level where
  price : ℚ
  quantity : ℚ

/-- An order book snapshot: bid levels (best first) and ask levels
(best first), as returned by the gateway. -/
structure Orderbook where
  bid : List Level
  ask : List Level

/-- Sum of pairwise products, as sum(p * s for p, s in zip(ps, ss)):
the zip truncates at the shorter list. -/
def sumZipMul : List ℚ → List ℚ → ℚ
  | p :: ps, s :: ss => p * s + sumZipMul ps ss
  | _, _ => 0

/-- The weighted-average reference of the top levels
(volume_bot_maker_only_v3.py lines 249-260): when the top lists are
nonempty the size-weighted average price is computed, raising a
ZeroDivisionError (the error case) when the sizes sum to zero exactly;
when the top lists are empty the simple best price is used instead. -/
def weightedRefE (tops sizes : List ℚ) (simple : Option ℚ) : Except Unit (Option ℚ) :=
  if tops = [] ∨ sizes = [] then Except.ok simple
  else if sizes.sum = 0 then Except.error ()
  else Except.ok (some (sumZipMul tops sizes / sizes.sum))

/-- Choice between the simple best price and the weighted reference
(volume_bot_maker_only_v3.py lines 262-281): when both are truthy and
the simple price deviates from the weighted reference by more than 1
percent, the weighted reference replaces it. -/
def pick_best (simple weighted : Option ℚ) : Option ℚ :=
  if simple.getD 0 ≠ 0 ∧ weighted.getD 0 ≠ 0 then
    if |simple.getD 0 - weighted.getD 0| / weighted.getD 0 > 1 / 100 then weighted
    else simple
  else simple

/-- The last-resort median fallback per side
(volume_bot_maker_only_v3.py lines 294-295): median of the top 5 prices
when at least 3 levels exist, otherwise the second price when two exist,
otherwise the first. -/
def median_fallback (prices : List ℚ) : ℚ :=
  if 3 ≤ prices.length then median (prices.take 5)
  else if 1 < prices.length then prices.getD 1 0
  else prices.getD 0 0

/-- The branch selection of get_robust_market_prices after both
references are computed (volume_bot_maker_only_v3.py lines 262-297):
pick the best price per side, and if the pair is truthy and inverted
fall back to the weighted pair, then to the median fallback pair. -/
def grmp_select (bid_prices ask_prices : List ℚ)
    (best_bid_simple best_ask_simple weighted_bid weighted_ask : Option ℚ) :
    Option ℚ × Option ℚ :=
  let best_bid := pick_best best_bid_simple weighted_bid
  let best_ask := pick_best best_ask_simple weighted_ask
  if best_bid.getD 0 ≠ 0 ∧ best_ask.getD 0 ≠ 0 ∧
      best_ask.getD 0 ≤ best_bid.getD 0 then
    if weighted_ask.getD 0 ≤ weighted_bid.getD 0 then
      (some (median_fallback bid_prices), some (median_fallback ask_prices))
    else (weighted_bid, weighted_ask)
  else (best_bid, best_ask)

/-- The body of the try block of get_robust_market_prices, once the
price and size lists are extracted: compute both weighted references
(either may raise on a zero size sum, which the except handler turns
into (none, none)) and select the returned pair. -/
def grmp_core (bid_prices bid_sizes ask_prices ask_sizes : List ℚ) :
    Option ℚ × Option ℚ :=
  match weightedRefE (bid_prices.take 3) (bid_sizes.take 3) bid_prices.head?,
        weightedRefE (ask_prices.take 3) (ask_sizes.take 3) ask_prices.head? with
  | Except.ok weighted_bid, Except.ok weighted_ask =>
      grmp_select bid_prices ask_prices bid_prices.head? ask_prices.head?
        weighted_bid weighted_ask
  | _, _ => (none, none)

/-- Extraction step of get_robust_market_prices on a successfully
fetched order book (volume_bot_maker_only_v3.py lines 224-297). The
source also computes filtered_bids and filtered_asks from the deeper
levels (lines 239-240) but never uses them afterwards; they are kept
here as dead bindings exactly as in the source. -/
def grmp_ok (orderbook : Orderbook) (depth : ℕ) : Option ℚ × Option ℚ :=
  let bid_prices := (orderbook.bid.take depth).map Level.price
  let bid_sizes := (orderbook.bid.take depth).map Level.quantity
  let ask_prices := (orderbook.ask.take depth).map Level.price
  let ask_sizes := (orderbook.ask.take depth).map Level.quantity
  let _filtered_bids := filter_outlier_prices (bid_prices.drop 1) (3 / 2)
  let _filtered_asks := filter_outlier_prices (ask_prices.drop 1) (3 / 2)
  grmp_core bid_prices bid_sizes ask_prices ask_sizes

/-- get_robust_market_prices (volume_bot_maker_only_v3.py lines
218-301): on a gateway failure the except handler returns
(None, None); otherwise the extracted book is processed. -/
def get_robust_market_prices (gw : Except Unit Orderbook) (depth : ℕ) :
    Option ℚ × Option ℚ :=
  match gw with
  | Except.error _ => (none, none)
  | Except.ok orderbook => grmp_ok orderbook depth

/-- Initial adaptive maker-sell price (volume_bot_maker_only_v3.py
lines 462-499), banded by the potential profit and loss at the market
ask. -/
def initial_sell_price (best_ask buy_price quantity : ℚ) : ℚ :=
  let potential_pnl := (best_ask - buy_price) * quantity
  if 3 ≤ potential_pnl then best_ask + 3 / 2
  else if 3 / 2 ≤ potential_pnl then best_ask + 4 / 5
  else if 1 / 2 ≤ potential_pnl then best_ask + 3 / 10
  else if -(1 / 5) ≤ potential_pnl then max (best_ask + 1 / 5) (buy_price + 1 / 10)
  else if -1 ≤ potential_pnl then best_ask + 1 / 10
  else best_ask + 1 / 20

/-- Re-price of the resting maker sell order at an adjustment step
(volume_bot_maker_only_v3.py lines 573-623): elapsed at least 1200
seconds forces best ask plus one cent; otherwise the potential profit
band selects a decayed offset. -/
def adjust_sell_price (elapsed : ℤ) (best_ask buy_price quantity : ℚ)
    (adjustment_count : ℕ) : ℚ :=
  let potential_pnl := (best_ask - buy_price) * quantity
  if 1200 ≤ elapsed then best_ask + 1 / 100
  else if 3 ≤ potential_pnl then
    best_ask + max (6 / 5 - (adjustment_count : ℚ) * (3 / 20)) (1 / 2)
  else if 3 / 2 ≤ potential_pnl then
    best_ask + max (3 / 5 - (adjustment_count : ℚ) * (1 / 10)) (3 / 10)
  else if 1 / 2 ≤ potential_pnl then
    best_ask + max (3 / 10 - (adjustment_count : ℚ) * (1 / 20)) (3 / 20)
  else if 0 ≤ potential_pnl then
    best_ask + max (3 / 20 - (adjustment_count : ℚ) * (3 / 100)) (1 / 20)
  else if -1 ≤ potential_pnl then
    if adjustment_count ≤ 3 then
      best_ask + (1 / 10 - (adjustment_count : ℚ) * (1 / 50))
    else best_ask + 1 / 50
  else best_ask + 1 / 100

/-- Guard that starts an adjustment step of the maker sell loop in
volume_bot_maker_only_v3.py (line 550): only the time since the last
price set is compared against the adjustment interval; the elapsed
time in leg and the maximum wait do not occur in the condition. -/
def sell_adjust_trigger (since_last_adj adjustment_interval _elapsed _max_wait_time : ℤ) :
    Bool :=
  decide (adjustment_interval ≤ since_last_adj)

/-- Guard that starts an adjustment step of the maker sell loop in
shorter.py (line 481): the interval check or the forced-exit deadline. -/
def shorter_sell_adjust_trigger (since_last_adj adjustment_interval elapsed max_wait_time : ℤ) :
    Bool :=
  decide (adjustment_interval ≤ since_last_adj) || decide (max_wait_time ≤ elapsed)

/-- The Adjusting trigger as the claim states it, for comparison with
the source guards: time since last price set exceeds the adjustment
interval OR the forced-exit deadline is reached. -/
def spec_adjust_trigger (since_last_adj adjustment_interval elapsed max_wait_time : ℤ) :
    Bool :=
  decide (adjustment_interval < since_last_adj) || decide (max_wait_time ≤ elapsed)

/-- Re-price of the resting maker sell order at an adjustment step in
shorter.py (lines 500-547): the potential profit is computed against
the entry price, on the bid side for a short and on the ask side for a
long; elapsed at least 1200 seconds forces best ask plus one cent. -/
def shorter_adjust_sell_price (elapsed : ℤ) (best_bid best_ask entry_price quantity : ℚ)
    (adjustment_count : ℕ) (is_short : Bool) : ℚ :=
  let potential_pnl :=
    if is_short then (entry_price - best_bid) * quantity
    else (best_ask - entry_price) * quantity
  if 1200 ≤ elapsed then best_ask + 1 / 100
  else if 3 ≤ potential_pnl then
    best_ask + max (6 / 5 - (adjustment_count : ℚ) * (3 / 20)) (1 / 2)
  else if 3 / 2 ≤ potential_pnl then
    best_ask + max (3 / 5 - (adjustment_count : ℚ) * (1 / 10)) (3 / 10)
  else if 1 / 2 ≤ potential_pnl then
    best_ask + max (3 / 10 - (adjustment_count : ℚ) * (1 / 20)) (3 / 20)
  else if 0 ≤ potential_pnl then
    best_ask + max (3 / 20 - (adjustment_count : ℚ) * (3 / 100)) (1 / 20)
  else if -1 ≤ potential_pnl then
    if adjustment_count ≤ 3 then
      best_ask + (1 / 10 - (adjustment_count : ℚ) * (1 / 50))
    else best_ask + 1 / 50
  else best_ask + 1 / 100

/-- MarketTrendTracker state (volume_bot_maker_only_v3.py lines 32-97):
a rolling price history of (timestamp, price) pairs, the consecutive
loss counter and the cooldown bookkeeping. -/
structure MarketTrendTracker where
  price_history : List (ℚ × ℚ)
  consecutive_losses : ℕ
  last_cooldown_time : ℚ
  total_cooldowns : ℕ

/-- Fresh tracker as built by the constructor. -/
def MarketTrendTracker.init : MarketTrendTracker :=
  { price_history := [], consecutive_losses := 0,
    last_cooldown_time := 0, total_cooldowns := 0 }

/-- add_price_point: append the new (now, price) pair and keep only
entries newer than 1800 seconds ago. -/
def MarketTrendTracker.add_price_point (t : MarketTrendTracker) (now price : ℚ) :
    MarketTrendTracker :=
  { t with price_history :=
      (t.price_history ++ [(now, price)]).filter (fun tp => decide (now - 1800 < tp.1)) }

/-- Number of strictly decreasing consecutive pairs in a price list, as
the generator sum in is_downtrend. -/
def downtrend_count : List ℚ → ℕ
  | a :: b :: rest => (if b < a then 1 else 0) + downtrend_count (b :: rest)
  | _ => 0

/-- is_downtrend (volume_bot_maker_only_v3.py lines 47-61): false for
fewer than 3 recorded points, otherwise true when among the last 5
recorded prices at least length minus one consecutive pairs strictly
decrease. -/
def MarketTrendTracker.is_downtrend (t : MarketTrendTracker) : Bool :=
  if t.price_history.length < 3 then false
  else
    let recent_prices :=
      (t.price_history.drop (t.price_history.length - 5)).map Prod.snd
    if recent_prices.length < 3 then false
    else decide (recent_prices.length - 1 ≤ downtrend_count recent_prices)

/-- record_cycle_result (volume_bot_maker_only_v3.py lines 63-71):
a loss deeper than 50 cents increments the consecutive loss counter,
anything else resets it to zero. -/
def MarketTrendTracker.record_cycle_result (t : MarketTrendTracker) (pnl : ℚ) :
    MarketTrendTracker :=
  if pnl < -(1 / 2) then { t with consecutive_losses := t.consecutive_losses + 1 }
  else { t with consecutive_losses := 0 }

/-- should_cooldown: three or more consecutive losses. -/
def MarketTrendTracker.should_cooldown (t : MarketTrendTracker) : Bool :=
  decide (3 ≤ t.consecutive_losses)

/-- State effect of do_cooldown (volume_bot_maker_only_v3.py lines
77-97), with the wall-clock sleep abstracted by the now argument: the
cooldown total increments, the cooldown time is recorded, and the
consecutive loss counter resets to zero at the end. -/
def MarketTrendTracker.do_cooldown (t : MarketTrendTracker) (now : ℚ) :
    MarketTrendTracker :=
  { t with total_cooldowns := t.total_cooldowns + 1,
           last_cooldown_time := now,
           consecutive_losses := 0 }

/-- One recorded cycle detail dictionary of TradingStats.add_cycle. -/
structure CycleDetail where
  success : Bool
  buy_price : ℚ
  sell_price : ℚ
  quantity : ℚ
  pnl : ℚ
  buy_adjustments : ℕ
  sell_adjustments : ℕ
  fees_paid : ℚ
  volume : ℚ

/-- TradingStats state (volume_bot_maker_only_v3.py lines 99-140). -/
structure TradingStats where
  start_time : ℚ
  start_balance : ℚ
  end_balance : ℚ
  completed_cycles : ℕ
  failed_buys : ℕ
  failed_sells : ℕ
  total_buy_adjustments : ℕ
  total_sell_adjustments : ℕ
  total_volume : ℚ
  total_fees_paid : ℚ
  profitable_cycles : ℕ
  losing_cycles : ℕ
  total_cooldowns : ℕ
  cycle_details : List CycleDetail

/-- Fresh TradingStats as built by the constructor, at the given start
time. -/
def TradingStats.init (now : ℚ) : TradingStats :=
  { start_time := now, start_balance := 0, end_balance := 0,
    completed_cycles := 0, failed_buys := 0, failed_sells := 0,
    total_buy_adjustments := 0, total_sell_adjustments := 0,
    total_volume := 0, total_fees_paid := 0,
    profitable_cycles := 0, losing_cycles := 0,
    total_cooldowns := 0, cycle_details := [] }

/-- add_cycle (volume_bot_maker_only_v3.py lines 117-140): always
append the detail record and accumulate the adjustment counters; on a
successful cycle increment the completed counter, accumulate volume and
fees, and increment exactly one of the profitable or losing counters
according to the sign of the profit. -/
def TradingStats.add_cycle (s : TradingStats) (success : Bool)
    (buy_price sell_price quantity pnl : ℚ)
    (buy_adjustments sell_adjustments : ℕ) (fees_paid : ℚ) : TradingStats :=
  let detail : CycleDetail :=
    { success := success, buy_price := buy_price, sell_price := sell_price,
      quantity := quantity, pnl := pnl, buy_adjustments := buy_adjustments,
      sell_adjustments := sell_adjustments, fees_paid := fees_paid,
      volume := if success then (buy_price + sell_price) * quantity else 0 }
  let s1 := { s with cycle_details := s.cycle_details ++ [detail] }
  let s2 :=
    if success then
      let s1a := { s1 with
        completed_cycles := s1.completed_cycles + 1,
        total_volume := s1.total_volume + (buy_price + sell_price) * quantity,
        total_fees_paid := s1.total_fees_paid + fees_paid }
      if 0 < pnl then { s1a with profitable_cycles := s1a.profitable_cycles + 1 }
      else { s1a with losing_cycles := s1a.losing_cycles + 1 }
    else s1
  { s2 with
    total_buy_adjustments := s2.total_buy_adjustments + buy_adjustments,
    total_sell_adjustments := s2.total_sell_adjustments + sell_adjustments }

/-- Argument record of one add_cycle call. -/
structure CycleCall where
  success : Bool
  buy_price : ℚ
  sell_price : ℚ
  quantity : ℚ
  pnl : ℚ
  buy_adjustments : ℕ
  sell_adjustments : ℕ
  fees_paid : ℚ

/-- Apply a sequence of add_cycle calls in order. -/
def TradingStats.add_cycles (s : TradingStats) : List CycleCall → TradingStats
  | [] => s
  | c :: cs =>
      TradingStats.add_cycles
        (s.add_cycle c.success c.buy_price c.sell_price c.quantity c.pnl
          c.buy_adjustments c.sell_adjustments c.fees_paid) cs

/-- C7: for every nonempty input list of prices the outlier filter
returns a nonempty list, and for every input with at most 2 elements it
returns the input unchanged. -/
theorem filter_outlier_nonempty_and_small_id :
    (∀ (prices : List ℚ) (mdp : ℚ), prices ≠ [] →
      filter_outlier_prices prices mdp ≠ []) ∧
    (∀ (prices : List ℚ) (mdp : ℚ), prices.length ≤ 2 →
      filter_outlier_prices prices mdp = prices) := by
  constructor
  · intro prices mdp hne
    unfold filter_outlier_prices
    split
    · exact hne
    · dsimp only
      split
      · exact List.cons_ne_nil _ _
      · assumption
  · intro prices mdp hle
    unfold filter_outlier_prices
    rw [if_pos hle]

/-- Witness for C7 at the concrete input [1] with threshold 2. -/
theorem filter_outlier_nonempty_and_small_id_witness :
    filter_outlier_prices [(1 : ℚ)] 2 ≠ [] ∧
    filter_outlier_prices [(1 : ℚ)] 2 = [(1 : ℚ)] :=
  ⟨filter_outlier_nonempty_and_small_id.1 [(1 : ℚ)] 2 (by decide),
   filter_outlier_nonempty_and_small_id.2 [(1 : ℚ)] 2 (by decide)⟩

/-- C5: record_cycle_result increments the consecutive loss counter
exactly when the profit is below minus 50 cents and otherwise resets it
to zero; from a zero counter the three results -0.60, -0.75, -0.55 make
should_cooldown true, and after do_cooldown the counter is zero. -/
theorem record_result_and_cooldown :
    (∀ (t : MarketTrendTracker) (pnl : ℚ),
      (t.record_cycle_result pnl).consecutive_losses =
        if pnl < -(1 / 2) then t.consecutive_losses + 1 else 0) ∧
    (∀ (t : MarketTrendTracker) (now : ℚ), t.consecutive_losses = 0 →
      (((t.record_cycle_result (-(3 / 5))).record_cycle_result
          (-(3 / 4))).record_cycle_result (-(11 / 20))).should_cooldown = true ∧
      (((((t.record_cycle_result (-(3 / 5))).record_cycle_result
          (-(3 / 4))).record_cycle_result (-(11 / 20))).do_cooldown now).consecutive_losses = 0)) := by
  constructor
  · intro t pnl
    unfold MarketTrendTracker.record_cycle_result
    split <;> rfl
  · intro t now h
    have h1 : ((-(3 / 5) : ℚ)) < -(1 / 2) := by norm_num
    have h2 : ((-(3 / 4) : ℚ)) < -(1 / 2) := by norm_num
    have h3 : ((-(11 / 20) : ℚ)) < -(1 / 2) := by norm_num
    constructor
    · simp only [MarketTrendTracker.record_cycle_result, if_pos h1, if_pos h2, if_pos h3,
        MarketTrendTracker.should_cooldown, h]
      decide
    · rfl

/-- Witness for C5 at the fresh tracker. -/
theorem record_result_and_cooldown_witness :
    ((((MarketTrendTracker.init.record_cycle_result (-(3 / 5))).record_cycle_result
        (-(3 / 4))).record_cycle_result (-(11 / 20))).should_cooldown = true ∧
    (((((MarketTrendTracker.init.record_cycle_result (-(3 / 5))).record_cycle_result
        (-(3 / 4))).record_cycle_result (-(11 / 20))).do_cooldown 0).consecutive_losses = 0)) ∧
    ((MarketTrendTracker.init.record_cycle_result 1).consecutive_losses =
      if (1 : ℚ) < -(1 / 2) then MarketTrendTracker.init.consecutive_losses + 1 else 0) :=
  ⟨record_result_and_cooldown.2 MarketTrendTracker.init 0 rfl,
   record_result_and_cooldown.1 MarketTrendTracker.init 1⟩

/-- C6: is_downtrend is false for fewer than 3 recorded points; with at
least 3 points it is true exactly when among the last 5 recorded prices
at least length minus one consecutive pairs strictly decrease (at least
3 such points always exist then); and it is true for the recorded price
sequence [10, 9, 8, 7, 6]. -/
theorem is_downtrend_characterization :
    (∀ t : MarketTrendTracker, t.price_history.length < 3 →
      t.is_downtrend = false) ∧
    (∀ t : MarketTrendTracker, 3 ≤ t.price_history.length →
      (t.is_downtrend = true ↔
        3 ≤ ((t.price_history.drop (t.price_history.length - 5)).map Prod.snd).length ∧
        ((t.price_history.drop (t.price_history.length - 5)).map Prod.snd).length - 1 ≤
          downtrend_count ((t.price_history.drop (t.price_history.length - 5)).map Prod.snd))) ∧
    MarketTrendTracker.is_downtrend
      { price_history := [(1, 10), (2, 9), (3, 8), (4, 7), (5, 6)],
        consecutive_losses := 0, last_cooldown_time := 0, total_cooldowns := 0 } = true := by
  refine ⟨?_, ?_, by decide⟩
  · intro t h
    unfold MarketTrendTracker.is_downtrend
    rw [if_pos h]
  · intro t h
    have hlen : ((t.price_history.drop (t.price_history.length - 5)).map Prod.snd).length =
        t.price_history.length - (t.price_history.length - 5) := by
      rw [List.length_map, List.length_drop]
    have h3 : 3 ≤ ((t.price_history.drop (t.price_history.length - 5)).map Prod.snd).length := by
      rw [hlen]; omega
    unfold MarketTrendTracker.is_downtrend
    rw [if_neg (by omega)]
    dsimp only
    rw [if_neg (by omega)]
    simp only [decide_eq_true_eq]
    exact ⟨fun hc => ⟨h3, hc⟩, fun hc => hc.2⟩

/-- Witness for C6 at two concrete trackers, one with 2 points and one
with 5 points. -/
theorem is_downtrend_characterization_witness :
    MarketTrendTracker.is_downtrend
      { price_history := [(1, 10), (2, 9)], consecutive_losses := 0,
        last_cooldown_time := 0, total_cooldowns := 0 } = false ∧
    (MarketTrendTracker.is_downtrend
      { price_history := [(1, 10), (2, 9), (3, 8), (4, 7), (5, 6)],
        consecutive_losses := 0, last_cooldown_time := 0, total_cooldowns := 0 } = true ↔
      3 ≤ (([((1 : ℚ), (10 : ℚ)), (2, 9), (3, 8), (4, 7), (5, 6)].drop
          ([((1 : ℚ), (10 : ℚ)), (2, 9), (3, 8), (4, 7), (5, 6)].length - 5)).map Prod.snd).length ∧
      (([((1 : ℚ), (10 : ℚ)), (2, 9), (3, 8), (4, 7), (5, 6)].drop
          ([((1 : ℚ), (10 : ℚ)), (2, 9), (3, 8), (4, 7), (5, 6)].length - 5)).map Prod.snd).length - 1 ≤
        downtrend_count (([((1 : ℚ), (10 : ℚ)), (2, 9), (3, 8), (4, 7), (5, 6)].drop
          ([((1 : ℚ), (10 : ℚ)), (2, 9), (3, 8), (4, 7), (5, 6)].length - 5)).map Prod.snd)) :=
  ⟨is_downtrend_characterization.1
      { price_history := [(1, 10), (2, 9)], consecutive_losses := 0,
        last_cooldown_time := 0, total_cooldowns := 0 } (by decide),
   is_downtrend_characterization.2.1
      { price_history := [(1, 10), (2, 9), (3, 8), (4, 7), (5, 6)],
        consecutive_losses := 0, last_cooldown_time := 0, total_cooldowns := 0 } (by decide)⟩

/-- Helper for C9: add_cycle preserves the counter balance invariant. -/
theorem add_cycle_preserves_balance (s : TradingStats) (success : Bool)
    (bp sp q pnl : ℚ) (ba sa : ℕ) (f : ℚ)
    (h : s.completed_cycles = s.profitable_cycles + s.losing_cycles) :
    (s.add_cycle success bp sp q pnl ba sa f).completed_cycles =
      (s.add_cycle success bp sp q pnl ba sa f).profitable_cycles +
      (s.add_cycle success bp sp q pnl ba sa f).losing_cycles := by
  cases success
  · simpa [TradingStats.add_cycle] using h
  · by_cases hp : 0 < pnl
    · simp [TradingStats.add_cycle, hp]; omega
    · simp [TradingStats.add_cycle, hp]; omega

/-- Helper for C9: add_cycles preserves the counter balance invariant. -/
theorem add_cycles_preserves_balance (calls : List CycleCall) (s : TradingStats)
    (h : s.completed_cycles = s.profitable_cycles + s.losing_cycles) :
    (s.add_cycles calls).completed_cycles =
      (s.add_cycles calls).profitable_cycles + (s.add_cycles calls).losing_cycles := by
  induction calls generalizing s with
  | nil => exact h
  | cons c cs ih =>
      exact ih _ (add_cycle_preserves_balance s c.success c.buy_price c.sell_price
        c.quantity c.pnl c.buy_adjustments c.sell_adjustments c.fees_paid h)

/-- C9: from a fresh TradingStats, after any sequence of add_cycle
calls the completed cycle count equals profitable plus losing; a
successful call increments completed and exactly one of profitable
(positive profit) or losing (otherwise); a failed call leaves all three
counters unchanged. -/
theorem trading_stats_counters :
    (∀ (now : ℚ) (calls : List CycleCall),
      ((TradingStats.init now).add_cycles calls).completed_cycles =
        ((TradingStats.init now).add_cycles calls).profitable_cycles +
        ((TradingStats.init now).add_cycles calls).losing_cycles) ∧
    (∀ (s : TradingStats) (bp sp q pnl : ℚ) (ba sa : ℕ) (f : ℚ),
      (s.add_cycle true bp sp q pnl ba sa f).completed_cycles = s.completed_cycles + 1 ∧
      (0 < pnl →
        (s.add_cycle true bp sp q pnl ba sa f).profitable_cycles = s.profitable_cycles + 1 ∧
        (s.add_cycle true bp sp q pnl ba sa f).losing_cycles = s.losing_cycles) ∧
      (pnl ≤ 0 →
        (s.add_cycle true bp sp q pnl ba sa f).losing_cycles = s.losing_cycles + 1 ∧
        (s.add_cycle true bp sp q pnl ba sa f).profitable_cycles = s.profitable_cycles)) ∧
    (∀ (s : TradingStats) (bp sp q pnl : ℚ) (ba sa : ℕ) (f : ℚ),
      (s.add_cycle false bp sp q pnl ba sa f).completed_cycles = s.completed_cycles ∧
      (s.add_cycle false bp sp q pnl ba sa f).profitable_cycles = s.profitable_cycles ∧
      (s.add_cycle false bp sp q pnl ba sa f).losing_cycles = s.losing_cycles) := by
  refine ⟨fun now calls => add_cycles_preserves_balance calls _ rfl, ?_, ?_⟩
  · intro s bp sp q pnl ba sa f
    refine ⟨?_, fun hp => ?_, fun hp => ?_⟩
    · by_cases hp : 0 < pnl <;> simp [TradingStats.add_cycle, hp]
    · simp [TradingStats.add_cycle, hp]
    · rw [← not_lt] at hp
      simp [TradingStats.add_cycle, hp]
  · intro s bp sp q pnl ba sa f
    refine ⟨?_, ?_, ?_⟩ <;> simp [TradingStats.add_cycle]

/-- Witness for C9 at concrete calls. -/
theorem trading_stats_counters_witness :
    ((TradingStats.init 0).add_cycle true 100 101 1 1 0 0 0).profitable_cycles =
      (TradingStats.init 0).profitable_cycles + 1 ∧
    ((TradingStats.init 0).add_cycle true 100 101 1 (-1) 0 0 0).losing_cycles =
      (TradingStats.init 0).losing_cycles + 1 ∧
    ((TradingStats.init 0).add_cycle false 100 101 1 1 0 0 0).completed_cycles =
      (TradingStats.init 0).completed_cycles ∧
    ((TradingStats.init 0).add_cycles []).completed_cycles =
      ((TradingStats.init 0).add_cycles []).profitable_cycles +
      ((TradingStats.init 0).add_cycles []).losing_cycles :=
  ⟨((trading_stats_counters.2.1 (TradingStats.init 0) 100 101 1 1 0 0 0).2.1
      (by norm_num)).1,
   ((trading_stats_counters.2.1 (TradingStats.init 0) 100 101 1 (-1) 0 0 0).2.2
      (by norm_num)).1,
   (trading_stats_counters.2.2 (TradingStats.init 0) 100 101 1 1 0 0 0).1,
   trading_stats_counters.1 0 []⟩

/-- Helper: a nonempty list of positive rationals has a positive sum. -/
theorem list_sum_pos_of_pos (l : List ℚ) (h : ∀ x ∈ l, 0 < x) (hne : l ≠ []) :
    0 < l.sum := by
  induction l with
  | nil => exact absurd rfl hne
  | cons a t ih =>
      rw [List.sum_cons]
      rcases eq_or_ne t [] with rfl | hne2
      · simpa using h a (List.mem_cons_self a [])
      · have ht := ih (fun x hx => h x (List.mem_cons_of_mem a hx)) hne2
        have ha := h a (List.mem_cons_self a t)
        linarith

/-- Helper: the zipped product sum of nonnegative lists is nonnegative. -/
theorem sumZipMul_nonneg (ps : List ℚ) : ∀ ss : List ℚ,
    (∀ x ∈ ps, 0 ≤ x) → (∀ x ∈ ss, 0 ≤ x) → 0 ≤ sumZipMul ps ss := by
  induction ps with
  | nil => intro ss _ _; cases ss <;> simp [sumZipMul]
  | cons p pt ih =>
      intro ss hp hs
      cases ss with
      | nil => simp [sumZipMul]
      | cons s st =>
          have h1 : 0 ≤ p * s :=
            mul_nonneg (hp p (List.mem_cons_self p pt)) (hs s (List.mem_cons_self s st))
          have h2 : 0 ≤ sumZipMul pt st :=
            ih st (fun x hx => hp x (List.mem_cons_of_mem p hx))
              (fun x hx => hs x (List.mem_cons_of_mem s hx))
          calc (0 : ℚ) ≤ p * s + sumZipMul pt st := by linarith
            _ = sumZipMul (p :: pt) (s :: st) := rfl

/-- Helper: the zipped product sum of nonempty positive lists is
positive. -/
theorem sumZipMul_pos (ps ss : List ℚ) (hpne : ps ≠ []) (hsne : ss ≠ [])
    (hp : ∀ x ∈ ps, 0 < x) (hs : ∀ x ∈ ss, 0 < x) : 0 < sumZipMul ps ss := by
  obtain ⟨p, pt, rfl⟩ := List.exists_cons_of_ne_nil hpne
  obtain ⟨s, st, rfl⟩ := List.exists_cons_of_ne_nil hsne
  have h1 : 0 < p * s :=
    mul_pos (hp p (List.mem_cons_self p pt)) (hs s (List.mem_cons_self s st))
  have h2 : 0 ≤ sumZipMul pt st :=
    sumZipMul_nonneg pt st (fun x hx => (hp x (List.mem_cons_of_mem p hx)).le)
      (fun x hx => (hs x (List.mem_cons_of_mem s hx)).le)
  calc (0 : ℚ) < p * s + sumZipMul pt st := by linarith
    _ = sumZipMul (p :: pt) (s :: st) := rfl

/-- Helper: on nonempty positive tops and sizes the weighted reference
succeeds and is a positive value. -/
theorem weightedRefE_pos (tops sizes : List ℚ) (simple : Option ℚ)
    (ht : tops ≠ []) (hs : sizes ≠ [])
    (htp : ∀ x ∈ tops, 0 < x) (hsp : ∀ x ∈ sizes, 0 < x) :
    ∃ w, weightedRefE tops sizes simple = Except.ok (some w) ∧ 0 < w := by
  have hsum : 0 < sizes.sum := list_sum_pos_of_pos sizes hsp hs
  have hnum : 0 < sumZipMul tops sizes := sumZipMul_pos tops sizes ht hs htp hsp
  refine ⟨sumZipMul tops sizes / sizes.sum, ?_, div_pos hnum hsum⟩
  unfold weightedRefE
  rw [if_neg (by simp [ht, hs]), if_neg hsum.ne']

/-- Helper: evaluation rule for the weighted reference on nonempty
inputs with a nonzero size sum. -/
theorem weightedRefE_eval (tops sizes : List ℚ) (simple : Option ℚ) (w : ℚ)
    (ht : ¬(tops = [] ∨ sizes = [])) (hsum : ¬sizes.sum = 0)
    (hw : sumZipMul tops sizes / sizes.sum = w) :
    weightedRefE tops sizes simple = Except.ok (some w) := by
  unfold weightedRefE
  rw [if_neg ht, if_neg hsum, hw]

/-- Helper: when the simple price deviates from the weighted reference
by more than 1 percent the weighted reference is picked. -/
theorem pick_best_far (p w : ℚ) (hp : p ≠ 0) (hw : w ≠ 0)
    (hdev : |p - w| / w > 1 / 100) :
    pick_best (some p) (some w) = some w := by
  unfold pick_best
  rw [if_pos (⟨hp, hw⟩ : (some p).getD 0 ≠ 0 ∧ (some w).getD 0 ≠ 0)]
  simp only [Option.getD_some]
  rw [if_pos hdev]

/-- Helper: when the simple price is within 1 percent of the weighted
reference the simple price is kept. -/
theorem pick_best_near (p w : ℚ) (hp : p ≠ 0) (hw : w ≠ 0)
    (hdev : ¬(|p - w| / w > 1 / 100)) :
    pick_best (some p) (some w) = some p := by
  unfold pick_best
  rw [if_pos (⟨hp, hw⟩ : (some p).getD 0 ≠ 0 ∧ (some w).getD 0 ≠ 0)]
  simp only [Option.getD_some]
  rw [if_neg hdev]

/-- Helper: picking between two positive candidates yields a positive
candidate. -/
theorem pick_best_pos (p w : ℚ) (hp : 0 < p) (hw : 0 < w) :
    ∃ b, pick_best (some p) (some w) = some b ∧ 0 < b := by
  unfold pick_best
  rw [if_pos (⟨hp.ne', hw.ne'⟩ : (some p).getD 0 ≠ 0 ∧ (some w).getD 0 ≠ 0)]
  split
  · exact ⟨w, rfl, hw⟩
  · exact ⟨p, rfl, hp⟩

/-- Helper: with simple best prices present and positive weighted
references, the selection step returns a pair that is either not
inverted or equal to the median fallback pair. -/
theorem grmp_select_pair_or_median (bidP askP : List ℚ) (p0 a0 wb wa : ℚ)
    (hbP : bidP.head? = some p0) (haP : askP.head? = some a0)
    (hp0 : 0 < p0) (ha0 : 0 < a0) (hwb : 0 < wb) (hwa : 0 < wa) :
    ∃ b a, grmp_select bidP askP bidP.head? askP.head? (some wb) (some wa) =
        (some b, some a) ∧
      (b < a ∨ (b = median_fallback bidP ∧ a = median_fallback askP)) := by
  obtain ⟨b, hb, hb0⟩ := pick_best_pos p0 wb hp0 hwb
  obtain ⟨a, ha, ha0'⟩ := pick_best_pos a0 wa ha0 hwa
  unfold grmp_select
  rw [hbP, haP, hb, ha]
  simp only [Option.getD_some]
  by_cases hinv : a ≤ b
  · rw [if_pos ⟨hb0.ne', ha0'.ne', hinv⟩]
    by_cases hinv2 : wa ≤ wb
    · rw [if_pos hinv2]
      exact ⟨_, _, rfl, Or.inr ⟨rfl, rfl⟩⟩
    · rw [if_neg hinv2]
      exact ⟨wb, wa, rfl, Or.inl (not_le.mp hinv2)⟩
  · rw [if_neg (fun hc => hinv hc.2.2)]
    exact ⟨b, a, rfl, Or.inl (not_le.mp hinv)⟩

/-- Helper: the core computation on lists with at least 3 positive
prices and sizes per side returns a present pair that is either not
inverted or equal to the median fallback pair. -/
theorem grmp_core_pair_or_median (bidP bidS askP askS : List ℚ)
    (hbl : 3 ≤ bidP.length) (hal : 3 ≤ askP.length)
    (hbsl : 3 ≤ bidS.length) (hasl : 3 ≤ askS.length)
    (hbp : ∀ x ∈ bidP, 0 < x) (hap : ∀ x ∈ askP, 0 < x)
    (hbs : ∀ x ∈ bidS, 0 < x) (has : ∀ x ∈ askS, 0 < x) :
    ∃ b a, grmp_core bidP bidS askP askS = (some b, some a) ∧
      (b < a ∨ (b = median_fallback bidP ∧ a = median_fallback askP)) := by
  have hbt : bidP.take 3 ≠ [] := by
    have : 0 < (bidP.take 3).length := by rw [List.length_take]; omega
    exact List.length_pos.mp this
  have hbst : bidS.take 3 ≠ [] := by
    have : 0 < (bidS.take 3).length := by rw [List.length_take]; omega
    exact List.length_pos.mp this
  have hat : askP.take 3 ≠ [] := by
    have : 0 < (askP.take 3).length := by rw [List.length_take]; omega
    exact List.length_pos.mp this
  have hast : askS.take 3 ≠ [] := by
    have : 0 < (askS.take 3).length := by rw [List.length_take]; omega
    exact List.length_pos.mp this
  obtain ⟨wb, hwbeq, hwb⟩ := weightedRefE_pos (bidP.take 3) (bidS.take 3) bidP.head?
    hbt hbst (fun x hx => hbp x (List.take_subset 3 bidP hx))
    (fun x hx => hbs x (List.take_subset 3 bidS hx))
  obtain ⟨wa, hwaeq, hwa⟩ := weightedRefE_pos (askP.take 3) (askS.take 3) askP.head?
    hat hast (fun x hx => hap x (List.take_subset 3 askP hx))
    (fun x hx => has x (List.take_subset 3 askS hx))
  have hbne : bidP ≠ [] := by
    intro h; rw [h] at hbl; simp at hbl
  have hane : askP ≠ [] := by
    intro h; rw [h] at hal; simp at hal
  obtain ⟨p0, bidPt, hbcons⟩ := List.exists_cons_of_ne_nil hbne
  obtain ⟨a0, askPt, hacons⟩ := List.exists_cons_of_ne_nil hane
  have hbhead : bidP.head? = some p0 := by rw [hbcons]; rfl
  have hahead : askP.head? = some a0 := by rw [hacons]; rfl
  have hp0 : 0 < p0 := hbp p0 (by rw [hbcons]; exact List.mem_cons_self p0 bidPt)
  have ha0 : 0 < a0 := hap a0 (by rw [hacons]; exact List.mem_cons_self a0 askPt)
  unfold grmp_core
  rw [hwbeq, hwaeq]
  exact grmp_select_pair_or_median bidP askP p0 a0 wb wa hbhead hahead hp0 ha0 hwb hwa

/-- Counterexample to C1 as stated: on a crossed book with 3 levels per
side (all bids at 100, all asks at 90) the oracle returns the inverted
pair (100, 90), which is neither the Unavailable sentinel (None, None)
nor a pair with bid below ask. -/
theorem grmp_inverted_on_crossed_book :
    get_robust_market_prices (Except.ok
      { bid := [⟨100, 1⟩, ⟨100, 1⟩, ⟨100, 1⟩],
        ask := [⟨90, 1⟩, ⟨90, 1⟩, ⟨90, 1⟩] }) 10 = (some 100, some 90) ∧
    ¬((100 : ℚ) < 90) ∧
    ((some (100 : ℚ), some (90 : ℚ)) ≠ ((none : Option ℚ), (none : Option ℚ))) := by
  refine ⟨?_, by norm_num, by simp⟩
  show grmp_core [(100 : ℚ), 100, 100] [(1 : ℚ), 1, 1] [(90 : ℚ), 90, 90] [(1 : ℚ), 1, 1] =
    (some 100, some 90)
  unfold grmp_core
  rw [show ([(100 : ℚ), 100, 100]).take 3 = [(100 : ℚ), 100, 100] from rfl,
      show ([(1 : ℚ), 1, 1]).take 3 = [(1 : ℚ), 1, 1] from rfl,
      show ([(90 : ℚ), 90, 90]).take 3 = [(90 : ℚ), 90, 90] from rfl,
      show ([(100 : ℚ), 100, 100]).head? = some (100 : ℚ) from rfl,
      show ([(90 : ℚ), 90, 90]).head? = some (90 : ℚ) from rfl,
      weightedRefE_eval [(100 : ℚ), 100, 100] [(1 : ℚ), 1, 1] (some (100 : ℚ)) 100
        (by simp) (by norm_num [List.sum_cons, List.sum_nil])
        (by norm_num [sumZipMul, List.sum_cons, List.sum_nil]),
      weightedRefE_eval [(90 : ℚ), 90, 90] [(1 : ℚ), 1, 1] (some (90 : ℚ)) 90
        (by simp) (by norm_num [List.sum_cons, List.sum_nil])
        (by norm_num [sumZipMul, List.sum_cons, List.sum_nil])]
  show grmp_select [(100 : ℚ), 100, 100] [(90 : ℚ), 90, 90]
      (some 100) (some 90) (some 100) (some 90) = (some 100, some 90)
  unfold grmp_select
  rw [pick_best_near 100 100 (by norm_num) (by norm_num)
        (by rw [sub_self, abs_zero]; norm_num),
      pick_best_near 90 90 (by norm_num) (by norm_num)
        (by rw [sub_self, abs_zero]; norm_num)]
  simp only [Option.getD_some]
  rw [if_pos (⟨by norm_num, by norm_num, by norm_num⟩ :
        (100 : ℚ) ≠ 0 ∧ (90 : ℚ) ≠ 0 ∧ (90 : ℚ) ≤ 100),
      if_pos (by norm_num : (90 : ℚ) ≤ 100),
      show median_fallback [(100 : ℚ), 100, 100] = 100 from by decide,
      show median_fallback [(90 : ℚ), 90, 90] = 90 from by decide]

/-- C1 amended: for every snapshot with at least 3 levels per side
whose prices and sizes are all positive, the oracle returns a pair with
both sides present that is either not inverted (bid strictly below ask)
or equal to the final median-of-top-5 fallback pair per side; that last
fallback is not guarded and can be inverted on a crossed book, so the
original claim fails only through it. -/
theorem grmp_pair_or_median_fallback (book : Orderbook) (depth : ℕ)
    (hb : 3 ≤ (book.bid.take depth).length)
    (ha : 3 ≤ (book.ask.take depth).length)
    (hbpos : ∀ l ∈ book.bid, 0 < l.price ∧ 0 < l.quantity)
    (hapos : ∀ l ∈ book.ask, 0 < l.price ∧ 0 < l.quantity) :
    ∃ b a, get_robust_market_prices (Except.ok book) depth = (some b, some a) ∧
      (b < a ∨
        (b = median_fallback ((book.bid.take depth).map Level.price) ∧
         a = median_fallback ((book.ask.take depth).map Level.price))) := by
  have hbp : ∀ x ∈ (book.bid.take depth).map Level.price, 0 < x := by
    intro x hx
    obtain ⟨l, hl, rfl⟩ := List.mem_map.mp hx
    exact (hbpos l (List.take_subset depth book.bid hl)).1
  have hbs : ∀ x ∈ (book.bid.take depth).map Level.quantity, 0 < x := by
    intro x hx
    obtain ⟨l, hl, rfl⟩ := List.mem_map.mp hx
    exact (hbpos l (List.take_subset depth book.bid hl)).2
  have hap : ∀ x ∈ (book.ask.take depth).map Level.price, 0 < x := by
    intro x hx
    obtain ⟨l, hl, rfl⟩ := List.mem_map.mp hx
    exact (hapos l (List.take_subset depth book.ask hl)).1
  have has : ∀ x ∈ (book.ask.take depth).map Level.quantity, 0 < x := by
    intro x hx
    obtain ⟨l, hl, rfl⟩ := List.mem_map.mp hx
    exact (hapos l (List.take_subset depth book.ask hl)).2
  have hbl : 3 ≤ ((book.bid.take depth).map Level.price).length := by
    rw [List.length_map]; exact hb
  have hbsl : 3 ≤ ((book.bid.take depth).map Level.quantity).length := by
    rw [List.length_map]; exact hb
  have hal : 3 ≤ ((book.ask.take depth).map Level.price).length := by
    rw [List.length_map]; exact ha
  have hasl : 3 ≤ ((book.ask.take depth).map Level.quantity).length := by
    rw [List.length_map]; exact ha
  show ∃ b a, grmp_ok book depth = (some b, some a) ∧ _
  unfold grmp_ok
  exact grmp_core_pair_or_median _ _ _ _ hbl hal hbsl hasl hbp hap hbs has

/-- Witness for C1 at a normal 3-level book. -/
theorem grmp_pair_or_median_fallback_witness :
    ∃ b a, get_robust_market_prices (Except.ok
        { bid := [⟨100, 1⟩, ⟨99, 1⟩, ⟨98, 1⟩],
          ask := [⟨101, 1⟩, ⟨102, 1⟩, ⟨103, 1⟩] }) 10 = (some b, some a) ∧
      (b < a ∨
        (b = median_fallback ((([⟨100, 1⟩, ⟨99, 1⟩, ⟨98, 1⟩] : List Level).take 10).map Level.price) ∧
         a = median_fallback ((([⟨101, 1⟩, ⟨102, 1⟩, ⟨103, 1⟩] : List Level).take 10).map Level.price))) :=
  grmp_pair_or_median_fallback
    { bid := [⟨100, 1⟩, ⟨99, 1⟩, ⟨98, 1⟩], ask := [⟨101, 1⟩, ⟨102, 1⟩, ⟨103, 1⟩] } 10
    (by decide) (by decide) (by decide) (by decide)

/-- C3: at the claimed order book (bids 99.98 size 1, 99.50 size 2,
80.00 size 5; asks 100.02 size 1, 100.5 size 2) the oracle does NOT
exclude the outlier 80.00 from the size-weighted bid reference: the
filtered lists are computed and then ignored, the weighted bid is
(99.98 + 2 times 99.50 + 5 times 80.00) / 8 = 87.3725, the best bid is
replaced by it because it deviates by more than 1 percent, and the
returned bid is 87.3725, more than 12 dollars away from the claimed
99.9 value. -/
theorem grmp_includes_outlier_in_weighted :
    get_robust_market_prices (Except.ok
      { bid := [⟨4999 / 50, 1⟩, ⟨199 / 2, 2⟩, ⟨80, 5⟩],
        ask := [⟨5001 / 50, 1⟩, ⟨201 / 2, 2⟩] }) 10 =
      (some (34949 / 400), some (5001 / 50)) ∧
    ¬(|(34949 / 400 : ℚ) - 999 / 10| ≤ 1) := by
  constructor
  · show grmp_core [(4999 / 50 : ℚ), 199 / 2, 80] [(1 : ℚ), 2, 5]
        [(5001 / 50 : ℚ), 201 / 2] [(1 : ℚ), 2] =
      (some (34949 / 400), some (5001 / 50))
    unfold grmp_core
    rw [show ([(4999 / 50 : ℚ), 199 / 2, 80]).take 3 = [(4999 / 50 : ℚ), 199 / 2, 80] from rfl,
        show ([(1 : ℚ), 2, 5]).take 3 = [(1 : ℚ), 2, 5] from rfl,
        show ([(5001 / 50 : ℚ), 201 / 2]).take 3 = [(5001 / 50 : ℚ), 201 / 2] from rfl,
        show ([(1 : ℚ), 2]).take 3 = [(1 : ℚ), 2] from rfl,
        show ([(4999 / 50 : ℚ), 199 / 2, 80]).head? = some (4999 / 50 : ℚ) from rfl,
        show ([(5001 / 50 : ℚ), 201 / 2]).head? = some (5001 / 50 : ℚ) from rfl,
        weightedRefE_eval [(4999 / 50 : ℚ), 199 / 2, 80] [(1 : ℚ), 2, 5]
          (some (4999 / 50 : ℚ)) (34949 / 400)
          (by simp) (by norm_num [List.sum_cons, List.sum_nil])
          (by norm_num [sumZipMul, List.sum_cons, List.sum_nil]),
        weightedRefE_eval [(5001 / 50 : ℚ), 201 / 2] [(1 : ℚ), 2]
          (some (5001 / 50 : ℚ)) (5017 / 50)
          (by simp) (by norm_num [List.sum_cons, List.sum_nil])
          (by norm_num [sumZipMul, List.sum_cons, List.sum_nil])]
    show grmp_select [(4999 / 50 : ℚ), 199 / 2, 80] [(5001 / 50 : ℚ), 201 / 2]
        (some (4999 / 50)) (some (5001 / 50)) (some (34949 / 400)) (some (5017 / 50)) =
      (some (34949 / 400), some (5001 / 50))
    unfold grmp_select
    rw [pick_best_far (4999 / 50) (34949 / 400) (by norm_num) (by norm_num)
          (by rw [abs_of_pos (by norm_num : (0 : ℚ) < 4999 / 50 - 34949 / 400)]; norm_num),
        pick_best_near (5001 / 50) (5017 / 50) (by norm_num) (by norm_num)
          (by rw [abs_of_neg (by norm_num : (5001 / 50 : ℚ) - 5017 / 50 < 0)]; norm_num)]
    simp only [Option.getD_some]
    rw [if_neg (fun hc => absurd hc.2.2 (by norm_num))]
  · rw [abs_of_neg (by norm_num : (34949 / 400 : ℚ) - 999 / 10 < 0)]
    norm_num

/-- Helper for C8: a missing simple bid makes the selected bid None. -/
theorem grmp_select_fst_none (bidP askP : List ℚ) (as wb wa : Option ℚ) :
    (grmp_select bidP askP none as wb wa).1 = none := by
  simp [grmp_select, pick_best]

/-- Helper for C8: a missing simple ask makes the selected ask None. -/
theorem grmp_select_snd_none (bidP askP : List ℚ) (bs wb wa : Option ℚ) :
    (grmp_select bidP askP bs none wb wa).2 = none := by
  simp [grmp_select, pick_best]

/-- Helper for C8: an empty bid side gives a None bid component. -/
theorem grmp_core_fst_none (bidS askP askS : List ℚ) :
    (grmp_core [] bidS askP askS).1 = none := by
  unfold grmp_core
  cases hask : weightedRefE (askP.take 3) (askS.take 3) askP.head? with
  | error e => rfl
  | ok wa => exact grmp_select_fst_none [] askP askP.head? none wa

/-- Helper for C8: an empty ask side gives a None ask component. -/
theorem grmp_core_snd_none (bidP bidS askS : List ℚ) :
    (grmp_core bidP bidS [] askS).2 = none := by
  unfold grmp_core
  cases hbid : weightedRefE (bidP.take 3) (bidS.take 3) bidP.head? with
  | error e => rfl
  | ok wb => exact grmp_select_snd_none bidP [] bidP.head? wb none

/-- Counterexample to C8 as stated: on a book whose ask side is empty
but whose bid side is not, the oracle returns (some bid, None), which
is not the Unavailable sentinel (None, None) produced by the failure
handler. -/
theorem grmp_empty_ask_not_unavailable :
    get_robust_market_prices (Except.ok { bid := [⟨100, 1⟩], ask := [] }) 10 =
      (some 100, none) ∧
    ((some (100 : ℚ), (none : Option ℚ)) ≠ ((none : Option ℚ), (none : Option ℚ))) := by
  refine ⟨?_, by simp⟩
  show grmp_core [(100 : ℚ)] [(1 : ℚ)] ([] : List ℚ) ([] : List ℚ) = (some 100, none)
  unfold grmp_core
  rw [show ([(100 : ℚ)]).take 3 = [(100 : ℚ)] from rfl,
      show ([(1 : ℚ)]).take 3 = [(1 : ℚ)] from rfl,
      show (([] : List ℚ)).take 3 = ([] : List ℚ) from rfl,
      show ([(100 : ℚ)]).head? = some (100 : ℚ) from rfl,
      show (([] : List ℚ)).head? = (none : Option ℚ) from rfl,
      weightedRefE_eval [(100 : ℚ)] [(1 : ℚ)] (some (100 : ℚ)) 100
        (by simp) (by norm_num [List.sum_cons, List.sum_nil])
        (by norm_num [sumZipMul, List.sum_cons, List.sum_nil]),
      show weightedRefE ([] : List ℚ) ([] : List ℚ) (none : Option ℚ) =
        Except.ok (none : Option ℚ) from rfl]
  show grmp_select [(100 : ℚ)] ([] : List ℚ) (some 100) none (some 100) none =
    (some 100, none)
  unfold grmp_select
  rw [pick_best_near 100 100 (by norm_num) (by norm_num)
        (by rw [sub_self, abs_zero]; norm_num),
      show pick_best none none = (none : Option ℚ) from rfl]
  rw [if_neg (fun hc => absurd hc.2.1 (by simp))]

/-- C8 amended: the oracle never raises (it is a total function whose
exceptional paths all produce None components); on a gateway failure it
returns the sentinel (None, None); when the bid side is empty the
returned bid is None (which callers treat as Unavailable); when the ask
side is empty the returned ask is None, but the pair is not the
(None, None) sentinel when bids remain. -/
theorem grmp_failure_modes (depth : ℕ) :
    get_robust_market_prices (Except.error ()) depth = (none, none) ∧
    (∀ book : Orderbook, book.bid = [] →
      (get_robust_market_prices (Except.ok book) depth).1 = none) ∧
    (∀ book : Orderbook, book.ask = [] →
      (get_robust_market_prices (Except.ok book) depth).2 = none) := by
  refine ⟨rfl, ?_, ?_⟩
  · intro book h
    show (grmp_ok book depth).1 = none
    simp only [grmp_ok, h, List.take_nil, List.map_nil]
    exact grmp_core_fst_none _ _ _
  · intro book h
    show (grmp_ok book depth).2 = none
    simp only [grmp_ok, h, List.take_nil, List.map_nil]
    exact grmp_core_snd_none _ _ _

/-- Witness for C8 at concrete books. -/
theorem grmp_failure_modes_witness :
    get_robust_market_prices (Except.error ()) 10 = (none, none) ∧
    (get_robust_market_prices (Except.ok { bid := [], ask := [⟨100, 1⟩] }) 10).1 = none ∧
    (get_robust_market_prices (Except.ok { bid := [⟨100, 1⟩], ask := [] }) 10).2 = none :=
  ⟨(grmp_failure_modes 10).1,
   (grmp_failure_modes 10).2.1 { bid := [], ask := [⟨100, 1⟩] } rfl,
   (grmp_failure_modes 10).2.2 { bid := [⟨100, 1⟩], ask := [] } rfl⟩

/-- Counterexample to C2 as stated: at a potential profit of 10 (band
at least 3.00) and adjustmentCount 3 the re-price offset is 0.75, not
the claimed 1.05. -/
theorem close_offset_counterexample :
    adjust_sell_price 0 110 100 1 3 = 110 + 3 / 4 ∧
    ((110 : ℚ) + 3 / 4 ≠ 110 + 21 / 20) := by
  constructor
  · norm_num [adjust_sell_price]
  · norm_num

/-- C2 amended: in the highest band (potential profit at least 3.00)
the initial placement offset is exactly 1.50, and at adjustmentCount 3
the re-price offset is max of 1.20 minus 3 times 0.15 and 0.50, that is
0.75 (the re-price decay starts from 1.20, not from the initial 1.50). -/
theorem close_pricing_bands :
    (∀ best_ask buy_price quantity : ℚ, 3 ≤ (best_ask - buy_price) * quantity →
      initial_sell_price best_ask buy_price quantity = best_ask + 3 / 2) ∧
    (∀ (elapsed : ℤ) (best_ask buy_price quantity : ℚ), elapsed < 1200 →
      3 ≤ (best_ask - buy_price) * quantity →
      adjust_sell_price elapsed best_ask buy_price quantity 3 = best_ask + 3 / 4) := by
  constructor
  · intro best_ask buy_price quantity h
    unfold initial_sell_price
    rw [if_pos h]
  · intro elapsed best_ask buy_price quantity he h
    unfold adjust_sell_price
    rw [if_neg (by omega), if_pos h]
    norm_num

/-- Witness for C2 at best ask 110, entry 100, quantity 1, elapsed 0. -/
theorem close_pricing_bands_witness :
    initial_sell_price 110 100 1 = 110 + 3 / 2 ∧
    adjust_sell_price 0 110 100 1 3 = 110 + 3 / 4 :=
  ⟨close_pricing_bands.1 110 100 1 (by norm_num),
   close_pricing_bands.2 0 110 100 1 (by norm_num) (by norm_num)⟩

/-- Counterexample to C4 as stated: in the maker sell loop of
volume_bot_maker_only_v3.py, at 10 seconds since the last price set
(interval 30) with an elapsed time that already reached the 1200 second
forced-exit deadline, the adjustment step is not triggered, while the
claimed trigger condition holds. -/
theorem v3_trigger_counterexample :
    sell_adjust_trigger 10 30 1200 1200 = false ∧
    spec_adjust_trigger 10 30 1200 1200 = true := by
  exact ⟨by decide, by decide⟩

/-- C4 amended: in both bots every re-price step with elapsed at least
1200 seconds sets the price to best ask plus 0.01, overriding every
potential profit band; in shorter.py the adjustment step is triggered
when the time since the last price set reaches the interval OR the
forced-exit deadline is reached, while in volume_bot_maker_only_v3.py
it is triggered exactly when the time since the last price set reaches
the interval, independently of the elapsed time and deadline. -/
theorem forced_exit_and_triggers :
    (∀ (elapsed : ℤ) (best_ask buy_price quantity : ℚ) (c : ℕ), 1200 ≤ elapsed →
      adjust_sell_price elapsed best_ask buy_price quantity c = best_ask + 1 / 100) ∧
    (∀ (elapsed : ℤ) (best_bid best_ask entry quantity : ℚ) (c : ℕ) (is_short : Bool),
      1200 ≤ elapsed →
      shorter_adjust_sell_price elapsed best_bid best_ask entry quantity c is_short =
        best_ask + 1 / 100) ∧
    (∀ s i e m : ℤ,
      shorter_sell_adjust_trigger s i e m = (decide (i ≤ s) || decide (m ≤ e))) ∧
    (∀ s i e1 m1 e2 m2 : ℤ,
      sell_adjust_trigger s i e1 m1 = sell_adjust_trigger s i e2 m2) ∧
    (∀ s i e m : ℤ, sell_adjust_trigger s i e m = true ↔ i ≤ s) := by
  refine ⟨?_, ?_, fun s i e m => rfl, fun s i e1 m1 e2 m2 => rfl, ?_⟩
  · intro elapsed best_ask buy_price quantity c h
    unfold adjust_sell_price
    rw [if_pos h]
  · intro elapsed best_bid best_ask entry quantity c is_short h
    unfold shorter_adjust_sell_price
    rw [if_pos h]
  · intro s i e m
    unfold sell_adjust_trigger
    exact decide_eq_true_iff

/-- Witness for C4 at elapsed 1200. -/
theorem forced_exit_and_triggers_witness :
    adjust_sell_price 1200 110 100 1 5 = 110 + 1 / 100 ∧
    shorter_adjust_sell_price 1200 90 110 100 1 5 true = 110 + 1 / 100 ∧
    (sell_adjust_trigger 30 30 0 1200 = true ↔ (30 : ℤ) ≤ 30) :=
  ⟨forced_exit_and_triggers.1 1200 110 100 1 5 (by norm_num),
   forced_exit_and_triggers.2.1 1200 90 110 100 1 5 true (by norm_num),
   forced_exit_and_triggers.2.2.2.2 30 30 0 1200⟩

/-- C10: the list returned by the outlier filter is a sublist of the
input: every returned element is an input element and the relative
order of the input is preserved, for every threshold. -/
theorem filter_outlier_sublist (prices : List ℚ) (mdp : ℚ) :
    (filter_outlier_prices prices mdp).Sublist prices := by
  unfold filter_outlier_prices
  split
  · exact List.Sublist.refl prices
  · dsimp only
    split
    · match prices, ‹¬prices.length ≤ 2› with
      | p :: rest, _ =>
        exact List.Sublist.cons₂ p (List.nil_sublist rest)
    · exact List.filter_sublist prices

end HibachiBot
